import Mathlib

/-!
Shallow embedding of the FHIR Nudge proxy core: the request prevalidation,
error rendering, upstream-error classification and empty-result composition
implemented in `fhir_nudge/app.py`, `fhir_nudge/error_renderer.py` and
`fhir_nudge/schemas.py`, together with theorems checking the specification's
claims against that embedding.  Python dictionaries with optional keys are
modelled by `PyField`; `None` is modelled explicitly so that the code's
`is None` / truthiness tests and `dict.get` defaults can be reproduced exactly.
-/

namespace FhirNudge

/-- A field of a Python dict: `none` means the key is absent, `some none` means
the key is present with value `None`, and `some (some v)` means the key is
present with value `v`. -/
abbrev PyField (α : Type) := Option (Option α)

/-- Python `d.get(k, default)`: an absent key gives the default, a present key
gives its value (which may be `None`). -/
def PyField.get {α : Type} (f : PyField α) (d : α) : Option α :=
  match f with
  | none => some d
  | some v => v

/-- One search-parameter descriptor of the capability index.
`load_capability_statement` stores all four keys on every descriptor, each
holding the upstream value or `None` (`param.get(...)`).  The `example` key is
named `examp` here because `example` is a Lean keyword. -/
structure ParamDescriptor where
  name : Option String
  type : Option String
  documentation : Option String
  examp : Option String
deriving DecidableEq, Repr

/-- A caller-supplied issue dict handed to `render_error` under the `issues`
key of the context (`error_data`). -/
structure RawIssue where
  severity : PyField String := none
  code : PyField String := none
  diagnostics : PyField String := none
  details : PyField String := none
deriving DecidableEq, Repr

/-- The value stored under `supported_params`: the proxy passes a joined string
in the unknown-parameter branch and a plain Python list in the other branches. -/
inductive SPVal where
  | str (s : String)
  | strlist (xs : List String)
deriving DecidableEq, Repr

/-- A Python value as it can occur in `error_data`; templates format these with
`str(...)` (`pyStr` below). -/
inductive PyVal where
  | pynone
  | str (s : String)
  | int (n : Int)
  | strlist (xs : List String)
  | schema (xs : List ParamDescriptor)
  | rawissues (xs : List RawIssue)
deriving DecidableEq, Repr

/-- Python `repr` of a string, for strings free of quote and escape characters
(every string the proxy puts into a list it later formats is of this shape). -/
def pyReprStr (s : String) : String := "'" ++ s ++ "'"

/-- Python `str` of a list of strings: `['a', 'b']`. -/
def pyReprStrList (xs : List String) : String :=
  "[" ++ String.intercalate (", ") (xs.map pyReprStr) ++ "]"

/-- Python `str()` as used by `str.format` substitution.  The `schema` and
`rawissues` values never appear in any template hole (no template references
those keys), so their rendering is irrelevant; a marker is used. -/
def pyStr : PyVal → String
  | .pynone => "None"
  | .str s => s
  | .int n => toString n
  | .strlist xs => pyReprStrList xs
  | .schema _ => "<schema>"
  | .rawissues _ => "<issues>"

/-- The context dict (`error_data`) handed to `render_error`.  These are the
nine keys the proxy's call sites ever populate; templates reference no other
key, so a dict with further keys behaves identically. -/
structure ErrorData where
  resource_type : PyField String := none
  resource_id : PyField String := none
  status_code : PyField Int := none
  expected_id_format : PyField String := none
  diagnostics : PyField String := none
  supported_params : PyField SPVal := none
  supported_param_schema : PyField (List ParamDescriptor) := none
  unsupported_params : PyField (List String) := none
  issues : PyField (List RawIssue) := none
deriving DecidableEq, Repr

/-- Injection of a possibly-`None` Python value into `PyVal`. -/
def pyOfOpt {α : Type} (inj : α → PyVal) (v : Option α) : PyVal :=
  match v with
  | none => .pynone
  | some a => inj a

/-- `SPVal` as a `PyVal`. -/
def spToPy : SPVal → PyVal
  | .str s => .str s
  | .strlist xs => .strlist xs

/-- Dict lookup on `error_data`: `none` means the key is absent (a `KeyError`
if `str.format` needs it). -/
def ErrorData.lookup (d : ErrorData) (k : String) : Option PyVal :=
  if k = "resource_type" then d.resource_type.map (pyOfOpt .str)
  else if k = "resource_id" then d.resource_id.map (pyOfOpt .str)
  else if k = "status_code" then d.status_code.map (pyOfOpt .int)
  else if k = "expected_id_format" then d.expected_id_format.map (pyOfOpt .str)
  else if k = "diagnostics" then d.diagnostics.map (pyOfOpt .str)
  else if k = "supported_params" then d.supported_params.map (pyOfOpt spToPy)
  else if k = "supported_param_schema" then d.supported_param_schema.map (pyOfOpt .schema)
  else if k = "unsupported_params" then d.unsupported_params.map (pyOfOpt .strlist)
  else if k = "issues" then d.issues.map (pyOfOpt .rawissues)
  else none

/-- Python truthiness of `value is None` on a dict lookup: true when the key is
absent or holds `None`. -/
def pyIsNone (v : Option PyVal) : Bool :=
  match v with
  | none => true
  | some .pynone => true
  | some _ => false

/-- A piece of a Python format string: literal text or a `{key}` hole. -/
inductive Piece where
  | lit (s : String)
  | hole (k : String)
deriving DecidableEq, Repr

/-- Python `template.format(**data)`: substitutes `str()` of each hole's value,
returning `none` (a `KeyError`) when a hole's key is missing from the data. -/
def formatTpl : List Piece → (String → Option PyVal) → Option String
  | [], _ => some ("")
  | .lit s :: rest, f => (formatTpl rest f).map (fun t => s ++ t)
  | .hole k :: rest, f =>
    match f k with
    | none => none
    | some v => (formatTpl rest f).map (fun t => pyStr v ++ t)

/-- One entry of `CODE_ERROR_DEFS`. -/
structure ErrorDef where
  template : List Piece
  next_steps : List Piece
  required_fields : List String
deriving DecidableEq, Repr

/-- `CODE_ERROR_DEFS` from `error_renderer.py`: the per-kind template table. -/
def CODE_ERROR_DEFS (error_type : String) : Option ErrorDef :=
  if error_type = "not_found" then some
    ⟨[.lit ("No "), .hole ("resource_type"), .lit (" resource was found with ID '"),
      .hole ("resource_id"), .lit ("'.")],
     [.lit ("Try searching for the "), .hole ("resource_type"), .lit (" using /searchResource.")],
     ["resource_type", "resource_id", "status_code"]⟩
  else if error_type = "invalid_id" then some
    ⟨[.lit ("The ID '"), .hole ("resource_id"), .lit ("' is not valid for resource type '"),
      .hole ("resource_type"), .lit ("'.")],
     [.lit ("Check the format of '"), .hole ("resource_id"),
      .lit ("' and try again. Expected format: "), .hole ("expected_id_format"),
      .lit (". Consult the documentation if unsure.")],
     ["resource_type", "resource_id", "status_code", "expected_id_format"]⟩
  else if error_type = "invalid_param" then some
    ⟨[.lit ("Parameter(s) provided are not supported for resource '"), .hole ("resource_type"),
      .lit ("'. "), .hole ("diagnostics")],
     [.lit ("Supported search parameters for '"), .hole ("resource_type"), .lit ("': "),
      .hole ("supported_params"), .lit (". Correct any typos or use one of these parameters.")],
     ["resource_type", "status_code", "supported_params"]⟩
  else if error_type = "missing_param" then some
    ⟨[.lit ("No query parameters were provided for resource '"), .hole ("resource_type"),
      .lit ("'. At least one search parameter is required.")],
     [.lit ("Specify at least one valid search parameter for '"), .hole ("resource_type"),
      .lit ("'. See the API documentation for supported parameters.")],
     ["resource_type", "status_code"]⟩
  else if error_type = "invalid-type" then some
    ⟨[.lit ("Resource type '"), .hole ("resource_type"), .lit ("' is not supported.")],
     [.lit ("Check the spelling or refer to the list of supported resource types.")],
     ["resource_type", "status_code"]⟩
  else none

/-- `format_data` preparation of `render_error`: every required field that is
absent or `None` is replaced by a `<missing field>` placeholder string (empty
string for `diagnostics`). -/
def fill_required (lookup : String → Option PyVal) (required : List String) :
    String → Option PyVal :=
  fun k =>
    if required.contains k && pyIsNone (lookup k) then
      some (.str (if k = "diagnostics" then "" else "<missing " ++ k ++ ">"))
    else lookup k

/-- A rendered issue of the AIX envelope (`OperationOutcomeIssue` in
`schemas.py`): all four fields are `Optional[str]`. -/
structure OperationOutcomeIssue where
  severity : Option String
  code : Option String
  diagnostics : Option String
  details : Option String
deriving DecidableEq, Repr

/-- The AIX error envelope (`AIXErrorResponse` in `schemas.py`). -/
structure AIXErrorResponse where
  error : String
  friendly_message : String
  next_steps : Option String
  resource_type : Option String
  resource_id : Option String
  status_code : Int
  issues : List OperationOutcomeIssue
deriving DecidableEq, Repr

/-- Issue normalization of `render_error`: defaults for absent keys; a key
explicitly holding `None` stays `None`. -/
def patchIssue (i : RawIssue) : OperationOutcomeIssue :=
  ⟨i.severity.get ("error"), i.code.get ("unknown"),
   i.diagnostics.get ("<missing diagnostics>"), i.details.get ("<missing details>")⟩

/-- The informational issue appended when required context fields were absent. -/
def incompleteContextIssue (missing : List String) : OperationOutcomeIssue :=
  ⟨some ("information"), some ("incomplete-context"),
   some ("Warning: Missing fields for this error: " ++ pyReprStrList missing),
   some ("<missing details>")⟩

/-- Python `str.capitalize`: first character uppercased, the rest lowercased. -/
def pyCapitalize (s : String) : String :=
  match s.data with
  | [] => s
  | c :: rest => String.mk (c.toUpper :: rest.map Char.toLower)

/-- Markdown table of `render_param_schema_markdown`: cells are
`param.get(h, "") or ""`, so a `None` value renders as the empty string. -/
def render_param_schema_markdown (xs : List ParamDescriptor) : String :=
  let cell : Option String → String := fun v => v.getD ""
  let headers := "| name | type | documentation | example |"
  let sep := "| --- | --- | --- | --- |"
  let rows := xs.map (fun p =>
    "| " ++ String.intercalate (" | ")
      [cell p.name, cell p.type, cell p.documentation, cell p.examp] ++ " |")
  String.intercalate ("\n") (headers :: sep :: rows)

/-- The fields the renderer reports as missing: the kind's required fields that
are absent or `None` in the context (empty for an unknown kind). -/
def missingFields (error_type : String) (d : ErrorData) : List String :=
  match CODE_ERROR_DEFS error_type with
  | some edef => edef.required_fields.filter (fun f => pyIsNone (d.lookup f))
  | none => []

/-- The tail of `render_error` once the messages are rendered: normalize the
caller-supplied issues, append the `incomplete-context` issue when required
fields were missing, and build the response model.  `none` models the
`TypeError` raised when the `issues` key explicitly holds `None`. -/
def renderFinish (error_type : String) (d : ErrorData) (friendly_message : String)
    (next_steps : Option String) : Option AIXErrorResponse :=
  match d.issues with
  | some none => none
  | di =>
    let missing := missingFields error_type d
    let patched := (di.join.getD []).map patchIssue
    let all_issues :=
      if missing.isEmpty then patched
      else patched ++ [incompleteContextIssue missing]
    some ⟨pyCapitalize (String.replace error_type ("_") (" ")), friendly_message,
          next_steps, d.resource_type.join, d.resource_id.join,
          (d.status_code.join).getD (-1), all_issues⟩

/-- `render_error` from `error_renderer.py`.  The result is `none` exactly when
the Python function raises: a `KeyError` while formatting `friendly_message`
(the `next_steps` format is wrapped in try/except, `friendly_message` is not),
an `issues` key explicitly holding `None` (iterating `None` raises), or an
unknown kind whose `diagnostics` holds `None` (the response model rejects a
`None` `friendly_message`). -/
def render_error (error_type : String) (d : ErrorData) : Option AIXErrorResponse :=
  let pretty_schema : Option String :=
    match d.supported_param_schema.join with
    | some xs => if xs.isEmpty then none else some (render_param_schema_markdown xs)
    | none => none
  let finish : String → Option String → Option AIXErrorResponse :=
    renderFinish error_type d
  match CODE_ERROR_DEFS error_type with
  | some edef =>
    let fd := fill_required d.lookup edef.required_fields
    match formatTpl edef.template fd with
    | none => none
    | some friendly_message =>
      let ns0 := formatTpl edef.next_steps fd
      let next_steps : Option String :=
        match pretty_schema with
        | some ps =>
          some (match ns0 with
                | some s => if s = "" then ps else ps ++ "\n\n" ++ s
                | none => ps)
        | none => ns0
      finish friendly_message next_steps
  | none =>
    match (match d.diagnostics with
           | none => some ("An error occurred.")
           | some v => v : Option String) with
    | none => none
    | some friendly_message => finish friendly_message pretty_schema

/-! ### difflib: `get_close_matches` (the fuzzy matcher) -/

/-- Length of the common prefix of two character lists. -/
def commonRunLen : List Char → List Char → Nat
  | a :: as, b :: bs => if a = b then commonRunLen as bs + 1 else 0
  | _, _ => 0

/-- Longest matching block between `a` and `b`, as difflib's
`find_longest_match` computes it for junk-free inputs (all strings here are far
below the autojunk threshold): the block `a[i:i+k] = b[j:j+k]` of maximal `k`,
with the earliest `i`, then the earliest `j`.  Returns `(i, j, k)`. -/
def longestMatchBlock (a b : List Char) : Nat × Nat × Nat :=
  (List.range (a.length)).foldl (fun best i =>
    (List.range (b.length)).foldl (fun best j =>
      let k := commonRunLen (a.drop i) (b.drop j)
      if best.2.2 < k then (i, j, k) else best) best) (0, 0, 0)

/-- Total size of the Ratcliff-Obershelp matching blocks (difflib's
`get_matching_blocks`), written with explicit fuel: every recursive call
strictly decreases the combined length, so `a.length + b.length + 1` fuel is
always sufficient. -/
def rsMatchTotal : Nat → List Char → List Char → Nat
  | 0, _, _ => 0
  | fuel + 1, a, b =>
    let ijk := longestMatchBlock a b
    let i := ijk.1
    let j := ijk.2.1
    let k := ijk.2.2
    if k = 0 then 0
    else k + rsMatchTotal fuel (a.take i) (b.take j) +
      rsMatchTotal fuel (a.drop (i + k)) (b.drop (j + k))

/-- Total matched size between two character lists. -/
def rsMatches (a b : List Char) : Nat := rsMatchTotal (a.length + b.length + 1) a b

/-- Python string comparison on code points (`str.__lt__`), computably on the
character lists. -/
def pyStrLtB : List Char → List Char → Bool
  | [], [] => false
  | [], _ :: _ => true
  | _ :: _, [] => false
  | a :: as, b :: bs =>
    if a < b then true else if b < a then false else pyStrLtB as bs

/-- Python `x < y` on strings. -/
def pyStrLt (x y : String) : Bool := pyStrLtB x.data y.data

/-- Numerator of twice-the-matches for difflib's ratio of candidate `x`. -/
def gcmNum (word x : String) : Nat := 2 * rsMatches x.data word.data

/-- `(numerator, denominator)` of the candidate's ratio, with
`_calculate_ratio`'s convention that the ratio is `1` when both strings are
empty; the denominator is therefore always positive. -/
def ratPair (word x : String) : Nat × Nat :=
  if x.length + word.length = 0 then (1, 1)
  else (gcmNum word x, x.length + word.length)

/-- `ratio(x) < ratio(y)`, by cross-multiplication. -/
def ratioLt (word x y : String) : Prop :=
  (ratPair word x).1 * (ratPair word y).2 < (ratPair word y).1 * (ratPair word x).2

/-- `ratio(x) = ratio(y)`, by cross-multiplication. -/
def ratioEq (word x y : String) : Prop :=
  (ratPair word x).1 * (ratPair word y).2 = (ratPair word y).1 * (ratPair word x).2

/-- The cutoff test of `get_close_matches` (cutoff `0.6`):
`2 * M / t ≥ 0.6  ↔  10 * M ≥ 3 * t` (with the empty-strings case true). -/
def gcmQualifies (word x : String) : Bool :=
  let t := x.length + word.length
  if t = 0 then true else decide (3 * t ≤ 10 * rsMatches x.data word.data)

/-- The order in which `heapq.nlargest(n, [(ratio, x) ...])` lists the scored
candidates: descending by ratio, ties broken by descending string comparison
(Python compares the tuples `(ratio, x)`, so `x` comes before `y` on a tie
exactly when `x` is not smaller than `y`). -/
def gcmBefore (word : String) (x y : String) : Prop :=
  ratioLt word y x ∨ (ratioEq word x y ∧ pyStrLt x y = false)

instance gcmBeforeDecidable (word : String) : DecidableRel (gcmBefore word) :=
  fun x y => by unfold gcmBefore ratioLt ratioEq; infer_instance

/-- difflib's `get_close_matches(word, possibilities, n, 0.6)`: candidates
passing the cutoff, ordered by `nlargest` (descending ratio, ties by descending
string order), capped at `n`. -/
def get_close_matches (word : String) (possibilities : List String) (n : Nat) : List String :=
  ((possibilities.filter (fun x => gcmQualifies word x)).insertionSort (gcmBefore word)).take n

/-! ### Capability index and query parameters -/

/-- The capability index: resource type → declared parameter descriptors, as an
association list in document order (a Python dict preserves insertion order;
its keys are distinct). -/
abbrev CapabilityIndex := List (String × List ParamDescriptor)

/-- `capability_idx[resource]` / `in` test support. -/
def lookupType (idx : CapabilityIndex) (resource : String) : Option (List ParamDescriptor) :=
  match idx with
  | [] => none
  | (t, ps) :: rest => if t = resource then some ps else lookupType rest resource

/-- Python `capability_idx.get(resource, [])`. -/
def lookupTypeD (idx : CapabilityIndex) (resource : String) : List ParamDescriptor :=
  (lookupType idx resource).getD []

/-- The keys of the capability index. -/
def typeKeys (idx : CapabilityIndex) : List String := idx.map Prod.fst

/-- The supported-parameter name list: names of descriptors whose `name` is
truthy (present and non-empty) — `{p["name"] for p in ... if p["name"]}`. -/
def supportedParamNames (objs : List ParamDescriptor) : List String :=
  objs.filterMap (fun p => match p.name with
    | some s => if s = "" then none else some s
    | none => none)

/-- Submitted query parameters: the ordered key-value pairs of the query
string.  werkzeug's MultiDict views are derived from this list. -/
abbrev QueryParams := List (String × String)

/-- Distinct elements in first-occurrence order (`seen` is the accumulator). -/
def dedupFirst : List String → List String → List String
  | [], _ => []
  | k :: rest, seen =>
    if seen.contains k then dedupFirst rest seen else k :: dedupFirst rest (k :: seen)

/-- MultiDict key iteration (`for key in query_params`): distinct keys in
first-occurrence order. -/
def qpKeys (qs : QueryParams) : List String := dedupFirst (qs.map Prod.fst) []

/-- MultiDict `getlist(key)`: every value submitted under `key`, in order. -/
def getlist (qs : QueryParams) (k : String) : List String :=
  (qs.filter (fun p => p.1 == k)).map Prod.snd

/-- MultiDict `items()`: one `(key, first value)` pair per distinct key, in
first-occurrence order. -/
def pyItems : QueryParams → QueryParams
  | [] => []
  | (k, v) :: rest => (k, v) :: pyItems (rest.filter (fun p => !(p.1 == k)))
termination_by qs => qs.length
decreasing_by
  simp only [List.length_cons]
  exact Nat.lt_succ_of_le (List.length_filter_le _ _)

/-- Python `sorted(...)` applied to a set of strings: the distinct elements in
ascending lexicographic order. -/
def pySortedSet (xs : List String) : List String :=
  (dedupFirst xs []).insertionSort (fun a b => a ≤ b)

/-! ### `_prevalidate_search_resource` and the read-path validation -/

/-- Result of `_prevalidate_search_resource`: `valid` is the `(True, None)`
outcome; `invalid env status` is `(False, (jsonify(env), status))`, where `env`
is `none` exactly when `render_error` would raise. -/
inductive PrevalResult where
  | valid
  | invalid (env : Option AIXErrorResponse) (status : Int)
deriving DecidableEq, Repr

/-- The `invalid-type` branch shared by the search and read paths
(`resource_id` is only present on the read path). -/
def invalidTypeData (idx : CapabilityIndex) (resource : String)
    (rid : PyField String) : ErrorData :=
  let valid_types := typeKeys idx
  let close := get_close_matches resource valid_types 3
  let diagnostics :=
    "Resource type '" ++ resource ++ "' is not supported. Supported types: " ++
      pyReprStrList (pySortedSet valid_types) ++ "." ++
      (if close.isEmpty then "" else " Did you mean: " ++ String.intercalate (", ") close ++ "?")
  ⟨some (some resource), rid, some (some 400), none, some (some diagnostics), none, none, none,
   some (some [⟨some (some ("error")), some (some ("invalid-type")),
               some (some diagnostics), none⟩])⟩

/-- The duplicate-parameter census of `_prevalidate_search_resource`: every
key occurring with more than one value, with its occurrence count, in key
order. -/
def param_counts (qs : QueryParams) : List (String × Nat) :=
  (qpKeys qs).filterMap (fun k =>
    if 1 < (getlist qs k).length then some (k, (getlist qs k).length) else none)

/-- The unknown-parameter list: query keys not in the supported-name set. -/
def unknownParams (supported : List String) (qs : QueryParams) : List String :=
  (qpKeys qs).filter (fun p => !(supported.contains p))

/-- `_prevalidate_search_resource` from `app.py`. -/
def prevalidate_search_resource (idx : CapabilityIndex) (resource : String)
    (qs : QueryParams) : PrevalResult :=
  if !((typeKeys idx).contains resource) then
    .invalid (render_error ("invalid-type") (invalidTypeData idx resource none)) 400
  else
    let supported_param_objs := lookupTypeD idx resource
    let supported_params := dedupFirst (supportedParamNames supported_param_objs) []
    if !(param_counts qs).isEmpty then
      let param_list := String.intercalate (", ")
        ((param_counts qs).map (fun kv => "'" ++ kv.1 ++ "' (" ++ toString kv.2 ++ " times)"))
      let diagnostics := "Duplicate/conflicting parameter(s) detected: " ++ param_list ++
        ". Each parameter should appear only once per request."
      let error_data : ErrorData :=
        ⟨some (some resource), none, some (some 400), none, some (some diagnostics),
         some (some (.strlist (supportedParamNames supported_param_objs))),
         some (some supported_param_objs), none,
         some (some [⟨some (some ("error")), some (some ("duplicate-param")),
                     some (some diagnostics), none⟩])⟩
      .invalid (render_error ("invalid_param") error_data) 400
    else
      let unknown_params := unknownParams supported_params qs
      if !unknown_params.isEmpty then
        let suggestions := unknown_params.filterMap (fun p =>
          match get_close_matches p supported_params 1 with
          | [] => none
          | c :: _ => some ("'" ++ p ++ "' → '" ++ c ++ "'"))
        let diagnostics := "Unsupported parameter(s) for resource '" ++ resource ++ "': " ++
          pyReprStrList unknown_params ++ "." ++
          (if suggestions.isEmpty then ""
           else " Did you mean: " ++ String.intercalate (", ") suggestions)
        let error_data : ErrorData :=
          ⟨some (some resource), none, some (some 400), none, some (some diagnostics),
           some (some (.str (String.intercalate (", ") (pySortedSet supported_params)))),
           some (some supported_param_objs), none,
           some (some [⟨some (some ("error")), some (some ("invalid-param")),
                       some (some diagnostics), none⟩])⟩
        .invalid (render_error ("invalid_param") error_data) 400
      else if qs.isEmpty then
        let diagnostics := "No query parameters provided. Please specify at least one " ++
          "search parameter for resource '" ++ resource ++ "'."
        let error_data : ErrorData :=
          ⟨some (some resource), none, some (some 400), none, some (some diagnostics),
           none, some (some supported_param_objs), none,
           some (some [⟨some (some ("error")), some (some ("missing-param")),
                       some (some diagnostics), none⟩])⟩
        .invalid (render_error ("missing_param") error_data) 400
      else
        .valid

/-- `[A-Za-z0-9\-\.]` (the regex is compiled on a `str`, so the ranges are the
ASCII letter and digit ranges only). -/
def isFhirIdChar (c : Char) : Bool :=
  decide ('A' ≤ c) && decide (c ≤ 'Z') || decide ('a' ≤ c) && decide (c ≤ 'z') ||
    decide ('0' ≤ c) && decide (c ≤ '9') || c == '-' || c == '.'

/-- The matching semantics of Python's `FHIR_ID_PATTERN.match(s)` for the
pattern `^[A-Za-z0-9\-\.]{1,64}$`: the engine backtracks over the greedy
repetition count `k`, and without `re.MULTILINE` the `$` anchor accepts either
the end of the string or the position just before one trailing newline. -/
def fhir_id_pattern_match (s : String) : Bool :=
  let cs := s.data
  (List.range' 1 64).any (fun k =>
    decide (k ≤ cs.length) && (cs.take k).all isFhirIdChar &&
      (decide (k = cs.length) || (decide (k + 1 = cs.length) && cs.getLast? == some ('\n'))))

/-- The accepted-id syntax exactly as the specification words it: 1 to 64
characters drawn from letters, digits, hyphen, and dot. -/
def specIdAccepted (s : String) : Bool :=
  decide (1 ≤ s.data.length) && decide (s.data.length ≤ 64) && s.data.all isFhirIdChar

/-- Result of the validation prefix of `read_resource` (everything before the
upstream call): the two error branches and the fall-through to forwarding. -/
inductive ReadPrevalResult where
  | invalidType (env : Option AIXErrorResponse) (status : Int)
  | invalidId (env : Option AIXErrorResponse) (status : Int)
  | forward
deriving DecidableEq, Repr

/-- The validation prefix of `read_resource` from `app.py` (lines before the
proxied GET). -/
def read_resource_prevalidate (idx : CapabilityIndex) (resource resource_id : String) :
    ReadPrevalResult :=
  if !((typeKeys idx).contains resource) then
    .invalidType
      (render_error ("invalid-type") (invalidTypeData idx resource (some (some resource_id)))) 400
  else if !(fhir_id_pattern_match resource_id) then
    let diagnostics := "The ID '" ++ resource_id ++ "' is not valid for resource type '" ++
      resource ++ "'. Expected format: [A-Za-z0-9-\\.]\x7b1,64\x7d."
    let error_data : ErrorData :=
      ⟨some (some resource), some (some resource_id), some (some 400),
       some (some ("[A-Za-z0-9-\\.]\x7b\x7b1,64\x7d\x7d")), none, none, none, none,
       some (some [⟨some (some ("error")), some (some ("invalid-id")),
                   some (some diagnostics), none⟩])⟩
    .invalidId (render_error ("invalid_id") error_data) 400
  else
    .forward

/-! ### `_enrich_search_resource_error` (the upstream error classifier) -/

/-- The `details` value of an upstream issue: a plain string or a dict whose
`text` key holds an optional string. -/
inductive UDetails where
  | str (s : String)
  | dict (text : Option String)
deriving DecidableEq, Repr

/-- One issue of an upstream OperationOutcome body (a JSON object whose present
fields are strings, or the `details` shapes above). -/
structure UpIssue where
  severity : PyField String := none
  code : PyField String := none
  diagnostics : PyField String := none
  details : PyField UDetails := none
deriving DecidableEq, Repr

/-- The parsed upstream body as far as the proxy inspects it.
`opOutcome issues` is a dict with resourceType `"OperationOutcome"` whose
`issue` key holds a list (an absent `issue` key behaves as the empty list on
every code path, so it is collapsed into `issues = []`); `bundle entry` is a
dict with resourceType `"Bundle"`, `entry` being `none` when the key is absent
(or holds a falsy non-list value) and `some xs` when it holds a list; `other`
is any other JSON document.  Shapes on which the classifier's issue processing
would raise (e.g. an `issue` value that is not a list of dicts) behave exactly
like `other` — the enclosing try/except catches the error and falls through —
so they are modelled as `other`. -/
inductive RespBody where
  | opOutcome (issues : List UpIssue)
  | bundle (entry : Option (List Unit))
  | other
deriving DecidableEq, Repr

/-- An upstream HTTP response: status code, raw text body, and the parsed JSON
view (`none` when `.json()` raises). -/
structure UpstreamResponse where
  status_code : Int
  text : String
  body : Option RespBody
deriving DecidableEq, Repr

/-- Rule 1 filter: `issue.get("code") in ("invalid", "value")`. -/
def isInvalidValueIssue (i : UpIssue) : Bool :=
  i.code.join == some ("invalid") || i.code.join == some ("value")

/-- Rule 2 filter: `issue.get("code") in ("not-supported", "unknown", "processing")`. -/
def isUnknownParamIssue (i : UpIssue) : Bool :=
  i.code.join == some ("not-supported") || i.code.join == some ("unknown") ||
    i.code.join == some ("processing")

/-- Rule 3 filter: code in `("structure", "required", "invalid")` and severity
`"error"`. -/
def isMalformedIssue (i : UpIssue) : Bool :=
  (i.code.join == some ("structure") || i.code.join == some ("required") ||
    i.code.join == some ("invalid")) && i.severity.join == some ("error")

/-- Rule 4 filter: severity in `("error", "warning")`. -/
def isActionableIssue (i : UpIssue) : Bool :=
  i.severity.join == some ("error") || i.severity.join == some ("warning")

/-- `issue.get("details", {}).get("text") if isinstance(issue.get("details"), dict)
else issue.get("details")`. -/
def upDetailsText (i : UpIssue) : Option String :=
  match i.details.join with
  | some (.dict t) => t
  | some (.str s) => some s
  | none => none

/-- `details or "<missing details>"`. -/
def detailsOrMissing (i : UpIssue) : String :=
  match upDetailsText i with
  | some s => if s = "" then "<missing details>" else s
  | none => "<missing details>"

/-- The issue dict built by the classifier branches: all four keys present,
`diagnostics` and `code` defaulting per branch, `severity` defaulting to
`"error"`, `details` always a string. -/
def enrichIssue (diagDefault codeDefault : String) (i : UpIssue) : RawIssue :=
  ⟨some (i.severity.get ("error")), some (i.code.get codeDefault),
   some (i.diagnostics.get diagDefault), some (some (detailsOrMissing i))⟩

/-- `issues[0]["diagnostics"] if issues else None` over the built issue dicts. -/
def headDiagVal (raws : List RawIssue) : Option String :=
  match raws with
  | [] => none
  | r :: _ => r.diagnostics.join

/-- The `error_data` dict shared by the four structured-classifier branches.
The second branch additionally stores an `unsupported_params` key, filled by a
best-effort regex over the diagnostics text; `render_error` never reads that
key (no template references it), so the extraction is omitted and the field
left absent — the rendered envelope is unaffected. -/
def classifierData (idx : CapabilityIndex) (resource : String) (status : Int)
    (raws : List RawIssue) : ErrorData :=
  let objs := lookupTypeD idx resource
  ⟨some (some resource), none, some (some status), none, some (headDiagVal raws),
   some (some (.strlist (supportedParamNames objs))), some (some objs), none,
   some (some raws)⟩

/-- The code after the structured-classifier try block of
`_enrich_search_resource_error`: wrap 405/422 responses, else build the
generic fallback envelope. -/
def enrich_fallthrough (idx : CapabilityIndex) (resource : String)
    (resp : UpstreamResponse) : Option (AIXErrorResponse × Int) :=
  let genericText := "FHIR server returned status " ++ toString resp.status_code ++ ": " ++
    resp.text
  if resp.status_code = 405 ∨ resp.status_code = 422 then
    let fromOutcome : Option String :=
      match resp.body with
      | some (.opOutcome issues) =>
        some (String.intercalate ("; ") (issues.filterMap (fun i =>
          match i.diagnostics.join with
          | some s => if s = "" then none else some s
          | none => none)))
      | _ => none
    let diagnostics :=
      match fromOutcome with
      | some s => if s = "" then genericText else s
      | none => genericText
    let code := if resp.status_code = 405 then "method-not-allowed" else "unprocessable-entity"
    let error_data : ErrorData :=
      ⟨some (some resource), none, some (some resp.status_code), none,
       some (some diagnostics), none, some (some (lookupTypeD idx resource)), none,
       some (some [⟨some (some ("error")), some (some code), some (some diagnostics),
         some (some ("Request method not allowed or entity unprocessable. See diagnostics."))⟩])⟩
    (render_error ("invalid_param") error_data).map (fun env => (env, resp.status_code))
  else
    let error_data : ErrorData :=
      ⟨some (some resource), none, some (some resp.status_code), none,
       some (some genericText), none, some (some (lookupTypeD idx resource)), none,
       some (some [⟨some (some ("error")), some (some ("unknown")),
                   some (some genericText), none⟩])⟩
    (render_error ("unknown_error") error_data).map (fun env => (env, resp.status_code))

/-- `_enrich_search_resource_error` from `app.py`: classify a non-2xx upstream
search response and render the AIX envelope.  The result is the
`(envelope, status)` pair; a `none` would mean an exception escaped the
function (provably none does on this model). -/
def enrich_search_resource_error (idx : CapabilityIndex) (resource : String)
    (resp : UpstreamResponse) : Option (AIXErrorResponse × Int) :=
  let fallthrough : Option (AIXErrorResponse × Int) := enrich_fallthrough idx resource resp
  match resp.body with
  | some (.opOutcome issues) =>
    if issues.isEmpty then fallthrough
    else
      let renderWith : List RawIssue → Option (AIXErrorResponse × Int) := fun raws =>
        match render_error ("invalid_param")
            (classifierData idx resource resp.status_code raws) with
        | some env => some (env, resp.status_code)
        | none => fallthrough
      let f1 := issues.filter isInvalidValueIssue
      if !f1.isEmpty then
        renderWith (f1.map (enrichIssue ("Invalid parameter value.") ("invalid")))
      else
        let f2 := issues.filter isUnknownParamIssue
        if !f2.isEmpty then
          renderWith (f2.map (enrichIssue ("Unsupported or unknown parameter.") ("invalid-param")))
        else
          let f3 := issues.filter isMalformedIssue
          if !f3.isEmpty then
            renderWith (f3.map (enrichIssue ("Malformed request.") ("invalid")))
          else
            let f4 := issues.filter isActionableIssue
            if 1 < f4.length then
              renderWith (f4.map (enrichIssue ("Issue encountered.") ("unknown")))
            else fallthrough
  | _ => fallthrough

/-- Whether any structured-classifier rule of
`_enrich_search_resource_error` fires on the parsed body. -/
def structuredRuleFires (b : Option RespBody) : Bool :=
  match b with
  | some (.opOutcome issues) =>
    !issues.isEmpty &&
      (!(issues.filter isInvalidValueIssue).isEmpty ||
       !(issues.filter isUnknownParamIssue).isEmpty ||
       !(issues.filter isMalformedIssue).isEmpty ||
       decide (1 < (issues.filter isActionableIssue).length))
  | _ => false

/-! ### `_empty_search_bundle_response` and `search_resource` postprocessing -/

/-- The empty-result payload
`{"resourceType": "Bundle", "entry": [], "friendly_message": ..., "next_steps": ...}`. -/
structure EmptyBundle where
  resourceType : String
  entry : List Unit
  friendly_message : String
  next_steps : String
deriving DecidableEq, Repr

/-- The inline markdown table of `_empty_search_bundle_response`; unlike
`render_param_schema_markdown` it interpolates cells with an f-string (so a
`None` value renders as `"None"`) and terminates every row with a newline. -/
def emptyBundleTable (objs : List ParamDescriptor) : String :=
  let cell : Option String → String := fun v => v.getD ("None")
  objs.foldl (fun acc p =>
    acc ++ "| " ++ cell p.name ++ " | " ++ cell p.type ++ " | " ++
      cell p.documentation ++ " | " ++ cell p.examp ++ " |\n")
    ("| name | type | documentation | example |\n| --- | --- | --- | --- |\n")

/-- `_empty_search_bundle_response` from `app.py`. -/
def empty_search_bundle_response (idx : CapabilityIndex) (resource : String)
    (qs : QueryParams) : EmptyBundle × Int :=
  let qp_lines := String.intercalate ("\n")
    ((pyItems qs).map (fun kv => "  " ++ kv.1 ++ ": " ++ kv.2))
  let base_steps := "Double-check the search parameters you used:\n\n" ++ qp_lines ++
    "\n\nIf this was not your intent, try adjusting the search parameters. " ++
    "See below for supported parameters."
  let objs := lookupTypeD idx resource
  let next_steps :=
    if objs.isEmpty then base_steps
    else base_steps ++ "\n\nSupported search parameters for '" ++ resource ++ "':\n" ++
      emptyBundleTable objs
  (⟨"Bundle", [], "No " ++ resource ++ " resources matched your search criteria.", next_steps⟩,
   200)

/-- What `search_resource` does with the upstream response once prevalidation
has succeeded (`app.py`, the code after the proxied GET). -/
inductive SearchPostOutcome where
  | errorEnriched (r : Option (AIXErrorResponse × Int))
  | emptyGuidance (r : EmptyBundle × Int)
  | passthrough
deriving DecidableEq, Repr

/-- The post-upstream dispatch of `search_resource`: enrich errors, convert an
empty (or entry-less) Bundle into guidance, pass everything else through
(including unparseable success bodies — the try/except swallows the parse
error). -/
def search_resource_postprocess (idx : CapabilityIndex) (resource : String)
    (qs : QueryParams) (resp : UpstreamResponse) : SearchPostOutcome :=
  if 400 ≤ resp.status_code then
    .errorEnriched (enrich_search_resource_error idx resource resp)
  else
    match resp.body with
    | some (.bundle none) => .emptyGuidance (empty_search_bundle_response idx resource qs)
    | some (.bundle (some xs)) =>
      if xs.isEmpty then .emptyGuidance (empty_search_bundle_response idx resource qs)
      else .passthrough
    | _ => .passthrough

/-! ### Shared concrete data for witnesses -/

/-- A small concrete capability index used by the witness theorems. -/
def sampleIndex : CapabilityIndex :=
  [("Patient", [⟨some ("name"), some ("string"), none, none⟩,
                ⟨some ("_id"), some ("token"), some ("d"), some ("e")⟩]),
   ("Observation", [])]

/-! ### Claim C9: the empty-result composition -/

/-- When no key occurs twice, `MultiDict.items()` returns exactly the submitted
pairs, so the empty-result guidance echoes every submitted parameter. -/
theorem pyItems_of_nodup_keys :
    ∀ qs : QueryParams, (qs.map Prod.fst).Nodup → pyItems qs = qs
  | [], _ => by simp [pyItems]
  | (k, v) :: rest, h => by
    rw [List.map_cons, List.nodup_cons] at h
    have hfilter : rest.filter (fun p => !(p.1 == k)) = rest := by
      apply List.filter_eq_self.mpr
      intro p hp
      have hmem : p.1 ∈ rest.map Prod.fst := List.mem_map_of_mem Prod.fst hp
      simp only [Bool.not_eq_true', beq_eq_false_iff_ne, ne_eq]
      intro hpk
      exact h.1 (hpk ▸ hmem)
    rw [pyItems, hfilter, pyItems_of_nodup_keys rest h.2]

/-- C9: for every resource type and query-parameter map (no key submitted
twice — guaranteed upstream by prevalidation), the empty-result composition
returns HTTP 200 with body `{resourceType: "Bundle", entry: [],
friendly_message, next_steps}` where `entry` is empty, `friendly_message` says
no matches were found, `next_steps` echoes every submitted parameter as
`key: value` lines and, when the resource type has at least one declared
parameter, appends the markdown supported-parameter table with columns
`name | type | documentation | example`. -/
theorem c9_empty_result_composition (idx : CapabilityIndex) (resource : String)
    (qs : QueryParams) (h : (qs.map Prod.fst).Nodup) :
    empty_search_bundle_response idx resource qs =
      (⟨"Bundle", [],
        "No " ++ resource ++ " resources matched your search criteria.",
        if (lookupTypeD idx resource).isEmpty then
          "Double-check the search parameters you used:\n\n" ++
            String.intercalate ("\n") (qs.map (fun kv => "  " ++ kv.1 ++ ": " ++ kv.2)) ++
            "\n\nIf this was not your intent, try adjusting the search parameters. " ++
            "See below for supported parameters."
        else
          "Double-check the search parameters you used:\n\n" ++
            String.intercalate ("\n") (qs.map (fun kv => "  " ++ kv.1 ++ ": " ++ kv.2)) ++
            "\n\nIf this was not your intent, try adjusting the search parameters. " ++
            "See below for supported parameters." ++
            "\n\nSupported search parameters for '" ++ resource ++ "':\n" ++
            emptyBundleTable (lookupTypeD idx resource)⟩, 200) := by
  unfold empty_search_bundle_response
  rw [pyItems_of_nodup_keys qs h]

/-- Witness for C9 at a concrete index, resource and query. -/
theorem c9_witness :
    (([(("name" : String), "a")] : QueryParams).map Prod.fst).Nodup ∧
      empty_search_bundle_response sampleIndex ("Patient") [("name", "a")] =
        (⟨"Bundle", [],
          "No " ++ "Patient" ++ " resources matched your search criteria.",
          if (lookupTypeD sampleIndex ("Patient")).isEmpty then
            "Double-check the search parameters you used:\n\n" ++
              String.intercalate ("\n")
                (([(("name" : String), "a")] : QueryParams).map
                  (fun kv => "  " ++ kv.1 ++ ": " ++ kv.2)) ++
              "\n\nIf this was not your intent, try adjusting the search parameters. " ++
              "See below for supported parameters."
          else
            "Double-check the search parameters you used:\n\n" ++
              String.intercalate ("\n")
                (([(("name" : String), "a")] : QueryParams).map
                  (fun kv => "  " ++ kv.1 ++ ": " ++ kv.2)) ++
              "\n\nIf this was not your intent, try adjusting the search parameters. " ++
              "See below for supported parameters." ++
              "\n\nSupported search parameters for '" ++ "Patient" ++ "':\n" ++
              emptyBundleTable (lookupTypeD sampleIndex ("Patient"))⟩, 200) :=
  ⟨by decide, c9_empty_result_composition sampleIndex ("Patient") [("name", "a")] (by decide)⟩

/-! ### Claim C10: empty-entry Bundles and unparseable success bodies -/

/-- C10: on the search path, a successful upstream Bundle without an `entry`
key is treated identically to one with an empty `entry` list — both produce
the HTTP-200 empty-result guidance instead of passing the body through — and a
successful body that does not parse as JSON is passed through unmodified
rather than raising. -/
theorem c10_empty_entry_equivalence (idx : CapabilityIndex) (resource : String)
    (qs : QueryParams) (status : Int) (text : String) (h : status < 400) :
    search_resource_postprocess idx resource qs ⟨status, text, some (.bundle none)⟩ =
        .emptyGuidance (empty_search_bundle_response idx resource qs) ∧
      search_resource_postprocess idx resource qs ⟨status, text, some (.bundle (some []))⟩ =
        .emptyGuidance (empty_search_bundle_response idx resource qs) ∧
      (empty_search_bundle_response idx resource qs).2 = 200 ∧
      search_resource_postprocess idx resource qs ⟨status, text, none⟩ = .passthrough := by
  have h4 : ¬ (400 ≤ status) := by omega
  refine ⟨?_, ?_, rfl, ?_⟩ <;> simp [search_resource_postprocess, h4]

/-- Witness for C10 at a concrete index, resource, query and a 200 response. -/
theorem c10_witness :
    ((200 : Int) < 400) ∧
      (search_resource_postprocess sampleIndex ("Patient") [("name", "a")]
          ⟨200, "", some (.bundle none)⟩ =
          .emptyGuidance (empty_search_bundle_response sampleIndex ("Patient") [("name", "a")]) ∧
        search_resource_postprocess sampleIndex ("Patient") [("name", "a")]
            ⟨200, "", some (.bundle (some []))⟩ =
          .emptyGuidance (empty_search_bundle_response sampleIndex ("Patient") [("name", "a")]) ∧
        (empty_search_bundle_response sampleIndex ("Patient") [("name", "a")]).2 = 200 ∧
        search_resource_postprocess sampleIndex ("Patient") [("name", "a")] ⟨200, "", none⟩ =
          .passthrough) :=
  ⟨by decide,
   c10_empty_entry_equivalence sampleIndex ("Patient") [("name", "a")] 200 ("") (by decide)⟩

/-! ### Claim C6: the resource-id syntax check -/

/-- A successful association-list lookup means the key is among the index keys. -/
theorem lookupType_contains {idx : CapabilityIndex} {r : String}
    {objs : List ParamDescriptor} (h : lookupType idx r = some objs) :
    (typeKeys idx).contains r = true := by
  induction idx with
  | nil => simp [lookupType] at h
  | cons p rest ih =>
    rw [lookupType] at h
    by_cases hp : p.1 = r
    · simp [typeKeys, List.contains_cons, hp]
    · rw [if_neg hp] at h
      simp [typeKeys, List.contains_cons] at ih ⊢
      exact Or.inr (by simpa [typeKeys] using ih h)

/-- The data of a constructed string. -/
theorem data_mk (l : List Char) : (String.mk l).data = l := rfl

/-- `specIdAccepted` unfolded to a proposition. -/
theorem specIdAccepted_iff (s : String) :
    specIdAccepted s = true ↔
      1 ≤ s.data.length ∧ s.data.length ≤ 64 ∧ ∀ c ∈ s.data, isFhirIdChar c = true := by
  simp [specIdAccepted, List.all_eq_true, and_assoc]

/-- Characterization of Python's `FHIR_ID_PATTERN.match`: it accepts exactly
the strings of 1–64 id characters, or such a string followed by one trailing
newline (the `$` anchor also matches just before a final newline). -/
theorem fhir_id_pattern_match_iff (s : String) :
    fhir_id_pattern_match s = true ↔
      (specIdAccepted s = true ∨
        (s.data.getLast? = some ('\n') ∧
          specIdAccepted (String.mk s.data.dropLast) = true)) := by
  rw [specIdAccepted_iff, specIdAccepted_iff]
  unfold fhir_id_pattern_match
  simp only [List.any_eq_true, List.mem_range'_1, Bool.and_eq_true, Bool.or_eq_true,
    decide_eq_true_eq, beq_iff_eq, List.all_eq_true, data_mk, List.length_dropLast]
  constructor
  · rintro ⟨k, ⟨hk1, hk65⟩, ⟨hkle, hall⟩, hend⟩
    rcases hend with hkn | ⟨hk1n, hlast⟩
    · left
      subst hkn
      rw [List.take_length] at hall
      exact ⟨hk1, by omega, hall⟩
    · right
      have hdt : s.data.dropLast = s.data.take k := by
        rw [List.dropLast_eq_take]
        congr 1
        omega
      refine ⟨hlast, by omega, by omega, ?_⟩
      rw [hdt]
      exact hall
  · rintro (⟨h1, h2, hall⟩ | ⟨hlast, h1, h2, hall⟩)
    · refine ⟨s.data.length, ⟨h1, by omega⟩, ⟨le_refl _, ?_⟩, Or.inl rfl⟩
      rw [List.take_length]
      exact hall
    · have hne : s.data ≠ [] := by
        intro hnil
        rw [hnil] at hlast
        simp at hlast
      have hlen : 1 ≤ s.data.length := List.length_pos.mpr hne
      refine ⟨s.data.length - 1, ⟨h1, by omega⟩, ⟨by omega, ?_⟩, Or.inr ⟨by omega, hlast⟩⟩
      rw [← List.dropLast_eq_take]
      exact hall

/-- C6 counterexample: `"a\n"` is not in the claimed id language (1–64
characters drawn from letters, digits, hyphen and dot), yet the read-path id
check lets it through to forwarding instead of failing with
`InvalidResourceId`. -/
theorem c6_counterexample :
    specIdAccepted ("a\n") = false ∧
      read_resource_prevalidate sampleIndex ("Patient") ("a\n") = .forward := by
  constructor
  · decide
  · rfl

/-- C6 (amended): for every resource type in the capability index, the id
check accepts exactly the Python-regex language — 1 to 64 characters drawn
from letters, digits, hyphen, and dot, optionally followed by one trailing
newline; every rejected id fails with the `InvalidResourceId` kind as a 400
envelope whose issue code is `invalid-id`, and every accepted id passes the id
check. -/
theorem c6_id_validation (idx : CapabilityIndex) (resource resource_id : String)
    (objs : List ParamDescriptor) (hidx : lookupType idx resource = some objs) :
    (fhir_id_pattern_match resource_id = true ↔
        (specIdAccepted resource_id = true ∨
          (resource_id.data.getLast? = some ('\n') ∧
            specIdAccepted (String.mk resource_id.data.dropLast) = true))) ∧
      (fhir_id_pattern_match resource_id = true →
        read_resource_prevalidate idx resource resource_id = .forward) ∧
      (fhir_id_pattern_match resource_id = false →
        ∃ env, read_resource_prevalidate idx resource resource_id =
            .invalidId (some env) 400 ∧
          env.status_code = 400 ∧
          env.issues.map (fun i => i.code) = [some ("invalid-id")]) := by
  have hc := lookupType_contains hidx
  refine ⟨fhir_id_pattern_match_iff resource_id, ?_, ?_⟩
  · intro hm
    unfold read_resource_prevalidate
    rw [hc, hm]
    rfl
  · intro hm
    simp only [read_resource_prevalidate, hc, hm, Bool.not_true, Bool.not_false,
      Bool.false_eq_true, if_false, if_true]
    exact ⟨_, rfl, rfl, rfl⟩

/-- Witness for the amended C6 at concrete inputs: a valid id passes, an
invalid one is rejected with the `invalid-id` issue. -/
theorem c6_witness :
    (lookupType sampleIndex ("Patient") =
        some [⟨some ("name"), some ("string"), none, none⟩,
              ⟨some ("_id"), some ("token"), some ("d"), some ("e")⟩]) ∧
      (fhir_id_pattern_match ("bad id!") = false →
        ∃ env, read_resource_prevalidate sampleIndex ("Patient") ("bad id!") =
            .invalidId (some env) 400 ∧
          env.status_code = 400 ∧
          env.issues.map (fun i => i.code) = [some ("invalid-id")]) ∧
      fhir_id_pattern_match ("bad id!") = false :=
  ⟨rfl,
   (c6_id_validation sampleIndex ("Patient") ("bad id!") _ rfl).2.2,
   by decide⟩

/-! ### Claims C2 and C8: renderer robustness and issue normalization -/

/-- Evaluation of `renderFinish` when the `issues` key does not explicitly
hold `None`. -/
theorem renderFinish_eval (error_type : String) (d : ErrorData) (fm : String)
    (ns : Option String) (h : d.issues ≠ some none) :
    renderFinish error_type d fm ns =
      some ⟨pyCapitalize (String.replace error_type ("_") (" ")), fm, ns,
        d.resource_type.join, d.resource_id.join, (d.status_code.join).getD (-1),
        (d.issues.join.getD []).map patchIssue ++
          (if (missingFields error_type d).isEmpty then []
           else [incompleteContextIssue (missingFields error_type d)])⟩ := by
  cases hd : d.issues with
  | none =>
    simp only [renderFinish, hd]
    cases hm : (missingFields error_type d).isEmpty <;> simp [hm]
  | some v =>
    cases v with
    | none => exact absurd hd h
    | some xs =>
      simp only [renderFinish, hd]
      cases hm : (missingFields error_type d).isEmpty <;> simp [hm]

/-- The issues of any successfully built envelope: the normalized caller
issues followed by the `incomplete-context` issue when fields were missing. -/
theorem renderFinish_issues (error_type : String) (d : ErrorData) (fm : String)
    (ns : Option String) (env : AIXErrorResponse)
    (h : renderFinish error_type d fm ns = some env) :
    env.issues = (d.issues.join.getD []).map patchIssue ++
      (if (missingFields error_type d).isEmpty then []
       else [incompleteContextIssue (missingFields error_type d)]) := by
  have hni : d.issues ≠ some none := by
    intro hd
    simp [renderFinish, hd] at h
  rw [renderFinish_eval error_type d fm ns hni] at h
  injection h with h
  rw [← h]

/-- Any envelope returned by `render_error` got its issues from
`renderFinish`, whatever branch produced the messages. -/
theorem render_error_issues (kind : String) (d : ErrorData) (env : AIXErrorResponse)
    (h : render_error kind d = some env) :
    env.issues = (d.issues.join.getD []).map patchIssue ++
      (if (missingFields kind d).isEmpty then []
       else [incompleteContextIssue (missingFields kind d)]) := by
  unfold render_error at h
  cases hdef : CODE_ERROR_DEFS kind with
  | some edef =>
    simp only [hdef] at h
    cases hfm : formatTpl edef.template (fill_required d.lookup edef.required_fields) with
    | none =>
      simp only [hfm] at h
      exact Option.noConfusion h
    | some fm =>
      simp only [hfm] at h
      exact renderFinish_issues _ _ _ _ _ h
  | none =>
    simp only [hdef] at h
    cases hdg : d.diagnostics with
    | none =>
      simp only [hdg] at h
      exact renderFinish_issues _ _ _ _ _ h
    | some v =>
      cases v with
      | none =>
        simp only [hdg] at h
        exact Option.noConfusion h
      | some s =>
        simp only [hdg] at h
        exact renderFinish_issues _ _ _ _ _ h

/-- C2 counterexample: rendering the `invalid_param` kind (which has a
template definition) with an empty context dict raises a `KeyError` — the
friendly-message template references `diagnostics`, which is neither a
required field nor present — so rendering does not succeed for every context
dictionary. -/
theorem c2_counterexample : render_error ("invalid_param") ({} : ErrorData) = none := rfl

/-- C2 (amended): for every error kind with a template definition and every
context dict whose friendly-message template formats without a `KeyError`
(each non-required placeholder is present) and whose `issues` key is not an
explicit `None`, rendering never raises; each required context field that is
absent is substituted into the templates as the `<missing field>` placeholder
by `fill_required`, and exactly one extra `incomplete-context` information
issue naming the missing fields is appended when at least one required field
was absent. -/
theorem c2_render_robustness (kind : String) (edef : ErrorDef) (d : ErrorData) (fm : String)
    (hdef : CODE_ERROR_DEFS kind = some edef)
    (hissues : d.issues ≠ some none)
    (hfm : formatTpl edef.template (fill_required d.lookup edef.required_fields) = some fm) :
    ∃ env, render_error kind d = some env ∧
      env.friendly_message = fm ∧
      env.issues = (d.issues.join.getD []).map patchIssue ++
        (if (missingFields kind d).isEmpty then []
         else [incompleteContextIssue (missingFields kind d)]) := by
  simp only [render_error, hdef, hfm]
  rw [renderFinish_eval kind d fm _ hissues]
  exact ⟨_, rfl, rfl, rfl⟩

/-- Witness for the amended C2: the claim's own instance — `not_found`
rendered with only `resource_type` does not throw, substitutes the
`<missing resource_id>` placeholder, and appends one `incomplete-context`
issue naming the absent fields. -/
theorem c2_witness :
    ∃ env, render_error ("not_found")
        ⟨some (some ("Patient")), none, none, none, none, none, none, none, none⟩ = some env ∧
      env.friendly_message = "No Patient resource was found with ID '<missing resource_id>'." ∧
      env.issues = [incompleteContextIssue ["resource_id", "status_code"]] :=
  c2_render_robustness ("not_found") _
    ⟨some (some ("Patient")), none, none, none, none, none, none, none, none⟩
    ("No Patient resource was found with ID '<missing resource_id>'.") rfl (by decide) rfl

/-- A normalized issue field is populated unless the caller's value was
explicitly null. -/
theorem PyField.get_isSome {α : Type} (f : PyField α) (dflt : α) (h : f ≠ some none) :
    (f.get dflt).isSome := by
  cases f with
  | none => rfl
  | some v =>
    cases v with
    | none => exact absurd rfl h
    | some a => rfl

/-- C8 counterexample: a caller-supplied issue whose `severity` key explicitly
holds null survives normalization as null (only absent keys are defaulted), so
not every rendered issue has all four fields non-null. -/
theorem c8_counterexample :
    ∃ env,
      render_error ("not_found")
          ⟨some (some ("Patient")), some (some ("x")), some (some 404), none, none, none, none,
           none, some (some [⟨some none, none, none, none⟩])⟩ = some env ∧
        env.issues.map (fun i => i.severity) = [none] :=
  ⟨_, rfl, rfl⟩

/-- C8 (amended): every issue of a successfully rendered envelope has all four
keys present — absent keys are defaulted (severity `error`, code `unknown`,
`<missing ...>` markers for diagnostics and details) — and all four are
non-null whenever the caller-supplied issues carry no explicitly-null field
values. -/
theorem c8_issue_fields (kind : String) (d : ErrorData) (env : AIXErrorResponse)
    (hrender : render_error kind d = some env)
    (hnonull : ∀ i ∈ d.issues.join.getD [], i.severity ≠ some none ∧ i.code ≠ some none ∧
      i.diagnostics ≠ some none ∧ i.details ≠ some none) :
    ∀ a ∈ env.issues,
      a.severity.isSome ∧ a.code.isSome ∧ a.diagnostics.isSome ∧ a.details.isSome := by
  rw [render_error_issues kind d env hrender]
  intro a ha
  rcases List.mem_append.mp ha with hmem | hmem
  · obtain ⟨i, hi, rfl⟩ := List.mem_map.mp hmem
    obtain ⟨h1, h2, h3, h4⟩ := hnonull i hi
    exact ⟨PyField.get_isSome _ _ h1, PyField.get_isSome _ _ h2,
      PyField.get_isSome _ _ h3, PyField.get_isSome _ _ h4⟩
  · by_cases hmiss : (missingFields kind d).isEmpty = true
    · rw [if_pos hmiss] at hmem
      simp at hmem
    · rw [if_neg hmiss, List.mem_singleton] at hmem
      subst hmem
      exact ⟨rfl, rfl, rfl, rfl⟩

/-- Witness for the amended C8 at a concrete rendering. -/
theorem c8_witness :
    ∃ env, render_error ("not_found")
        ⟨some (some ("Patient")), some (some ("x")), some (some 404), none, none, none, none,
         none, some (some [⟨some (some ("error")), some (some ("not-found")),
                           some (some ("gone")), none⟩])⟩ = some env ∧
      ∀ a ∈ env.issues,
        a.severity.isSome ∧ a.code.isSome ∧ a.diagnostics.isSome ∧ a.details.isSome := by
  refine ⟨_, rfl, ?_⟩
  exact c8_issue_fields ("not_found")
    ⟨some (some ("Patient")), some (some ("x")), some (some 404), none, none, none, none,
     none, some (some [⟨some (some ("error")), some (some ("not-found")),
                       some (some ("gone")), none⟩])⟩ _ rfl (by decide)

/-! ### Claims C1 and C7: search prevalidation -/

/-- `getlist` returns as many values as the key has occurrences. -/
theorem getlist_length (qs : QueryParams) (k : String) :
    (getlist qs k).length = (qs.map Prod.fst).count k := by
  unfold getlist
  rw [List.length_map, List.count, List.countP_map, ← List.countP_eq_length_filter]
  rfl

/-- Membership in the first-occurrence dedup. -/
theorem mem_dedupFirst : ∀ (l seen : List String) (a : String),
    a ∈ dedupFirst l seen ↔ a ∈ l ∧ a ∉ seen
  | [], seen, a => by simp [dedupFirst]
  | k :: rest, seen, a => by
    rw [dedupFirst]
    by_cases hk : seen.contains k = true
    · rw [if_pos hk, mem_dedupFirst rest seen a]
      have hkseen : k ∈ seen := List.elem_iff.mp hk
      constructor
      · rintro ⟨hr, hs⟩
        exact ⟨List.mem_cons_of_mem _ hr, hs⟩
      · rintro ⟨hck, hs⟩
        rcases List.mem_cons.mp hck with rfl | hr
        · exact absurd hkseen hs
        · exact ⟨hr, hs⟩
    · rw [if_neg hk]
      have hkseen : k ∉ seen := fun hm => hk (List.elem_iff.mpr hm)
      constructor
      · intro hmem
        rcases List.mem_cons.mp hmem with rfl | hr
        · exact ⟨List.mem_cons_self _ _, hkseen⟩
        · obtain ⟨hrr, hs⟩ := (mem_dedupFirst rest (k :: seen) a).mp hr
          exact ⟨List.mem_cons_of_mem _ hrr, fun hs' => hs (List.mem_cons_of_mem _ hs')⟩
      · rintro ⟨hck, hs⟩
        rcases List.mem_cons.mp hck with rfl | hr
        · exact List.mem_cons_self _ _
        · by_cases hak : a = k
          · subst hak
            exact List.mem_cons_self _ _
          · refine List.mem_cons_of_mem _ ((mem_dedupFirst rest (k :: seen) a).mpr ⟨hr, ?_⟩)
            intro hm
            rcases List.mem_cons.mp hm with h1 | h2
            · exact hak h1
            · exact hs h2

/-- A key submitted at least twice makes the duplicate census non-empty. -/
theorem param_counts_not_empty {qs : QueryParams} {k : String}
    (h : 2 ≤ (qs.map Prod.fst).count k) : (param_counts qs).isEmpty = false := by
  have hmem : k ∈ qpKeys qs := by
    rw [qpKeys, mem_dedupFirst]
    exact ⟨List.count_pos_iff.mp (by omega), List.not_mem_nil k⟩
  have hlen : 1 < (getlist qs k).length := by
    rw [getlist_length]
    omega
  by_contra hne
  rw [Bool.not_eq_false, List.isEmpty_iff] at hne
  have hnone := (List.filterMap_eq_nil_iff.mp hne) k hmem
  rw [if_pos hlen] at hnone
  exact Option.noConfusion hnone

/-- With each key submitted once, the duplicate census is empty. -/
theorem param_counts_nil_of_nodup {qs : QueryParams} (h : (qs.map Prod.fst).Nodup) :
    (param_counts qs).isEmpty = true := by
  rw [List.isEmpty_iff]
  apply List.filterMap_eq_nil_iff.mpr
  intro k _
  have hle : (getlist qs k).length ≤ 1 := by
    rw [getlist_length]
    exact List.nodup_iff_count_le_one.mp h k
  rw [if_neg (by omega)]

/-- With every submitted key supported, the unknown-parameter list is empty. -/
theorem unknownParams_nil {supported : List String} {qs : QueryParams}
    (h : ∀ p ∈ qs.map Prod.fst, p ∈ supported) :
    unknownParams (dedupFirst supported []) qs = [] := by
  apply List.filter_eq_nil_iff.mpr
  intro p hp
  rw [qpKeys, mem_dedupFirst] at hp
  have hmem : p ∈ dedupFirst supported [] :=
    (mem_dedupFirst supported [] p).mpr ⟨h p hp.1, List.not_mem_nil p⟩
  simpa using hmem

/-- The `supported_params` value is never `None` when present. -/
theorem pyIsNone_spToPy (v : SPVal) : pyIsNone (some (spToPy v)) = false := by
  cases v <;> rfl

/-- A present string value is not `None`. -/
theorem pyIsNone_str (s : String) : pyIsNone (some (.str s)) = false := rfl

/-- A present int value is not `None`. -/
theorem pyIsNone_int (n : Int) : pyIsNone (some (.int n)) = false := rfl

/-- Evaluation of `render_error` for the `invalid_param` kind when
`resource_type`, `status_code`, `diagnostics`, `supported_params` and `issues`
are all present: rendering succeeds, the status and normalized issues carry
through, and the diagnostics value lands in the friendly message. -/
theorem render_invalid_param_eval (rt : String) (dv : Option String) (sc : Int) (spv : SPVal)
    (schema : PyField (List ParamDescriptor)) (up : PyField (List String))
    (raws : List RawIssue) :
    ∃ env, render_error ("invalid_param")
        ⟨some (some rt), none, some (some sc), none, some dv, some (some spv),
         schema, up, some (some raws)⟩ = some env ∧
      env.friendly_message =
        "Parameter(s) provided are not supported for resource '" ++ rt ++ "'. " ++
          pyStr (pyOfOpt .str dv) ∧
      env.status_code = sc ∧
      env.issues = raws.map patchIssue := by
  refine ⟨_, rfl, ?_, rfl, ?_⟩
  · simp [pyStr, pyOfOpt, String.append_assoc, String.append_empty]
  · simp [missingFields, CODE_ERROR_DEFS, ErrorData.lookup, pyOfOpt,
      pyIsNone_str, pyIsNone_int, pyIsNone_spToPy]

/-- C1: for every resource type in the capability index and every query
multimap in which some key appears two or more times, search prevalidation
fails with the duplicate-parameter kind — a 400 envelope whose single issue
has code `duplicate-param` — regardless of whether the duplicated key (or any
other key) is supported, i.e. before the unsupported-parameter check can
fire. -/
theorem c1_duplicate_param_precedence (idx : CapabilityIndex) (resource : String)
    (qs : QueryParams) (objs : List ParamDescriptor) (k : String)
    (hidx : lookupType idx resource = some objs)
    (hdup : 2 ≤ (qs.map Prod.fst).count k) :
    ∃ env, prevalidate_search_resource idx resource qs = .invalid (some env) 400 ∧
      env.status_code = 400 ∧
      env.issues.map (fun i => i.code) = [some ("duplicate-param")] := by
  have hc := lookupType_contains hidx
  have hpc := param_counts_not_empty hdup
  unfold prevalidate_search_resource
  rw [hc, hpc]
  simp only [Bool.not_true, Bool.not_false, Bool.false_eq_true, if_false, if_true]
  obtain ⟨env, hre, _, hsc, hiss⟩ := render_invalid_param_eval resource
    (some ("Duplicate/conflicting parameter(s) detected: " ++
      String.intercalate (", ")
        ((param_counts qs).map (fun kv => "'" ++ kv.1 ++ "' (" ++ toString kv.2 ++ " times)")) ++
      ". Each parameter should appear only once per request.")) 400
    (.strlist (supportedParamNames (lookupTypeD idx resource)))
    (some (some (lookupTypeD idx resource))) none
    [⟨some (some ("error")), some (some ("duplicate-param")),
      some (some ("Duplicate/conflicting parameter(s) detected: " ++
        String.intercalate (", ")
          ((param_counts qs).map
            (fun kv => "'" ++ kv.1 ++ "' (" ++ toString kv.2 ++ " times)")) ++
        ". Each parameter should appear only once per request.")), none⟩]
  refine ⟨env, ?_, hsc, ?_⟩
  · rw [hre]
  · rw [hiss]
    rfl

/-- Witness for C1: a duplicated supported parameter is still rejected as a
duplicate. -/
theorem c1_witness :
    (lookupType sampleIndex ("Patient") =
        some [⟨some ("name"), some ("string"), none, none⟩,
              ⟨some ("_id"), some ("token"), some ("d"), some ("e")⟩]) ∧
      2 ≤ (([(("name" : String), "a"), ("name", "b")] : QueryParams).map Prod.fst).count
          ("name") ∧
      ∃ env, prevalidate_search_resource sampleIndex ("Patient")
            [("name", "a"), ("name", "b")] = .invalid (some env) 400 ∧
        env.status_code = 400 ∧
        env.issues.map (fun i => i.code) = [some ("duplicate-param")] :=
  ⟨rfl, by decide,
   c1_duplicate_param_precedence sampleIndex ("Patient") [("name", "a"), ("name", "b")] _
     ("name") rfl (by decide)⟩

/-- C7: for every resource type in the capability index and every non-empty
query map in which each key occurs exactly once and every key belongs to the
supported-parameter set (names of descriptors with a truthy name), search
prevalidation returns the valid outcome with no error response. -/
theorem c7_valid_search (idx : CapabilityIndex) (resource : String) (qs : QueryParams)
    (objs : List ParamDescriptor)
    (hidx : lookupType idx resource = some objs)
    (hne : qs ≠ [])
    (hnodup : (qs.map Prod.fst).Nodup)
    (hsup : ∀ p ∈ qs.map Prod.fst, p ∈ supportedParamNames objs) :
    prevalidate_search_resource idx resource qs = .valid := by
  have hc := lookupType_contains hidx
  have hD : lookupTypeD idx resource = objs := by
    rw [lookupTypeD, hidx]
    rfl
  have hm := List.elem_iff.mp hc
  simp [prevalidate_search_resource, hc, hm, hD, param_counts_nil_of_nodup hnodup,
    unknownParams_nil hsup, List.isEmpty_iff, hne]

/-- Witness for C7: a well-formed search query passes prevalidation. -/
theorem c7_witness :
    (lookupType sampleIndex ("Patient") =
        some [⟨some ("name"), some ("string"), none, none⟩,
              ⟨some ("_id"), some ("token"), some ("d"), some ("e")⟩]) ∧
      prevalidate_search_resource sampleIndex ("Patient") [("name", "a"), ("_id", "5")] =
        .valid :=
  ⟨rfl,
   c7_valid_search sampleIndex ("Patient") [("name", "a"), ("_id", "5")] _ rfl
     (by decide) (by decide) (by decide)⟩

/-! ### Claim C3: the generic upstream fallback -/

/-- When no structured-classifier rule fires, the classifier reduces to its
fallthrough (the code after the try block). -/
theorem enrich_eq_fallthrough (idx : CapabilityIndex) (resource : String)
    (resp : UpstreamResponse) (hrule : structuredRuleFires resp.body = false) :
    enrich_search_resource_error idx resource resp =
      enrich_fallthrough idx resource resp := by
  unfold enrich_search_resource_error
  cases hb : resp.body with
  | none => rfl
  | some b =>
    cases b with
    | opOutcome issues =>
      rw [hb] at hrule
      simp only [structuredRuleFires, Bool.and_eq_false_iff, Bool.or_eq_false_iff,
        Bool.not_eq_false', Bool.not_eq_true', decide_eq_false_iff_not] at hrule
      rcases hrule with he | ⟨⟨⟨h1, h2⟩, h3⟩, h4⟩
      · simp [he]
      · simp [h1, h2, h3, h4]
    | bundle e => rfl
    | other => rfl

/-- The generic fallback: for statuses other than 405 and 422 the fallthrough
renders the `unknown_error` envelope whose diagnostics is exactly
`"FHIR server returned status <code>: <raw body>"`. -/
theorem enrich_fallthrough_generic (idx : CapabilityIndex) (resource : String)
    (resp : UpstreamResponse) (h405 : resp.status_code ≠ 405)
    (h422 : resp.status_code ≠ 422) :
    ∃ env, enrich_fallthrough idx resource resp = some (env, resp.status_code) ∧
      env.status_code = resp.status_code ∧
      env.friendly_message =
        "FHIR server returned status " ++ toString resp.status_code ++ ": " ++ resp.text ∧
      env.issues.map (fun i => i.diagnostics) =
        [some ("FHIR server returned status " ++ toString resp.status_code ++ ": " ++
          resp.text)] := by
  unfold enrich_fallthrough
  rw [if_neg (by tauto : ¬(resp.status_code = 405 ∨ resp.status_code = 422))]
  exact ⟨_, rfl, rfl, rfl, rfl⟩

/-- C3: every upstream failure whose body is unparseable, or parses but
matches no classification rule, and whose status is neither 405 nor 422, is
classified without raising into the generic category: the envelope keeps the
upstream status code and its diagnostics (which also becomes the friendly
message of the `unknown_error` kind) is exactly
`"FHIR server returned status <code>: <raw body text>"`. -/
theorem c3_generic_upstream_error (idx : CapabilityIndex) (resource : String)
    (resp : UpstreamResponse)
    (hrule : structuredRuleFires resp.body = false)
    (h405 : resp.status_code ≠ 405) (h422 : resp.status_code ≠ 422) :
    ∃ env, enrich_search_resource_error idx resource resp = some (env, resp.status_code) ∧
      env.status_code = resp.status_code ∧
      env.friendly_message =
        "FHIR server returned status " ++ toString resp.status_code ++ ": " ++ resp.text ∧
      env.issues.map (fun i => i.diagnostics) =
        [some ("FHIR server returned status " ++ toString resp.status_code ++ ": " ++
          resp.text)] := by
  rw [enrich_eq_fallthrough idx resource resp hrule]
  exact enrich_fallthrough_generic idx resource resp h405 h422

/-- Witness for C3: the claim's own instance — an upstream 418 with an
unparseable plain-text body `"I'm a teapot!"`. -/
theorem c3_witness :
    ∃ env, enrich_search_resource_error sampleIndex ("Patient")
          ⟨418, "I'm a teapot!", none⟩ = some (env, (418 : Int)) ∧
      env.status_code = (418 : Int) ∧
      env.friendly_message =
        "FHIR server returned status " ++ toString (418 : Int) ++ ": " ++ "I'm a teapot!" ∧
      env.issues.map (fun i => i.diagnostics) =
        [some ("FHIR server returned status " ++ toString (418 : Int) ++ ": " ++
          "I'm a teapot!")] :=
  c3_generic_upstream_error sampleIndex ("Patient") ⟨418, "I'm a teapot!", none⟩ rfl
    (by decide) (by decide)

/-! ### Claim C4: structured-classifier priority -/

/-- A member satisfying the predicate makes the filter non-empty. -/
theorem filter_not_empty {α : Type} {p : α → Bool} {l : List α} {a : α}
    (ha : a ∈ l) (hp : p a = true) : (l.filter p).isEmpty = false := by
  rw [Bool.eq_false_iff]
  intro he
  rw [List.isEmpty_iff] at he
  have hmem := List.mem_filter.mpr ⟨ha, hp⟩
  rw [he] at hmem
  exact List.not_mem_nil a hmem

/-- Rendering of any structured-classifier branch: the branch's issue dicts
survive into the envelope, the status carries through, and the first built
issue's diagnostics value is promoted into the friendly message. -/
theorem render_classifier_eval (idx : CapabilityIndex) (resource : String) (sc : Int)
    (raws : List RawIssue) :
    ∃ env, render_error ("invalid_param") (classifierData idx resource sc raws) = some env ∧
      env.friendly_message =
        "Parameter(s) provided are not supported for resource '" ++ resource ++ "'. " ++
          pyStr (pyOfOpt .str (headDiagVal raws)) ∧
      env.status_code = sc ∧
      env.issues = raws.map patchIssue :=
  render_invalid_param_eval resource (headDiagVal raws) sc
    (.strlist (supportedParamNames (lookupTypeD idx resource)))
    (some (some (lookupTypeD idx resource))) none raws

/-- C4: on a structured OperationOutcome body with a non-empty issue list, the
classifier applies its rules in fixed priority order — invalid/value first
(promoting the first matching issue's diagnostics to the top-level summary),
then not-supported/unknown/processing, then structure/required/invalid with
severity error, then more-than-one error-or-warning issue (every issue
preserved) — the first rule with a non-empty match deciding the outcome, so an
issue with code `invalid` is never classified by the malformed-request rule. -/
theorem c4_classifier_priority (idx : CapabilityIndex) (resource : String)
    (resp : UpstreamResponse) (issues : List UpIssue)
    (hbody : resp.body = some (.opOutcome issues)) (hne : issues ≠ []) :
    ((∃ i ∈ issues, isInvalidValueIssue i = true) →
      ∃ env, enrich_search_resource_error idx resource resp =
          some (env, resp.status_code) ∧
        env.status_code = resp.status_code ∧
        env.issues = (issues.filter isInvalidValueIssue).map
          (fun i => patchIssue (enrichIssue ("Invalid parameter value.") ("invalid") i)) ∧
        env.friendly_message =
          "Parameter(s) provided are not supported for resource '" ++ resource ++ "'. " ++
            pyStr (pyOfOpt .str (headDiagVal ((issues.filter isInvalidValueIssue).map
              (enrichIssue ("Invalid parameter value.") ("invalid")))))) ∧
    (issues.filter isInvalidValueIssue = [] →
      (∃ i ∈ issues, isUnknownParamIssue i = true) →
      ∃ env, enrich_search_resource_error idx resource resp =
          some (env, resp.status_code) ∧
        env.status_code = resp.status_code ∧
        env.issues = (issues.filter isUnknownParamIssue).map
          (fun i => patchIssue
            (enrichIssue ("Unsupported or unknown parameter.") ("invalid-param") i))) ∧
    (issues.filter isInvalidValueIssue = [] → issues.filter isUnknownParamIssue = [] →
      (∃ i ∈ issues, isMalformedIssue i = true) →
      ∃ env, enrich_search_resource_error idx resource resp =
          some (env, resp.status_code) ∧
        env.status_code = resp.status_code ∧
        env.issues = (issues.filter isMalformedIssue).map
          (fun i => patchIssue (enrichIssue ("Malformed request.") ("invalid") i))) ∧
    (issues.filter isInvalidValueIssue = [] → issues.filter isUnknownParamIssue = [] →
      issues.filter isMalformedIssue = [] →
      1 < (issues.filter isActionableIssue).length →
      ∃ env, enrich_search_resource_error idx resource resp =
          some (env, resp.status_code) ∧
        env.status_code = resp.status_code ∧
        env.issues = (issues.filter isActionableIssue).map
          (fun i => patchIssue (enrichIssue ("Issue encountered.") ("unknown") i))) ∧
    (∀ i ∈ issues, i.code.join = some ("invalid") →
      issues.filter isInvalidValueIssue ≠ []) := by
  have hneE : issues.isEmpty = false := by
    rw [Bool.eq_false_iff]
    intro he
    exact hne (List.isEmpty_iff.mp he)
  refine ⟨?_, ?_, ?_, ?_, ?_⟩
  · rintro ⟨i, hi, hp⟩
    have hf1 := filter_not_empty hi hp
    obtain ⟨env, hre, hfm, hsc, hiss⟩ := render_classifier_eval idx resource resp.status_code
      ((issues.filter isInvalidValueIssue).map (enrichIssue ("Invalid parameter value.") ("invalid")))
    refine ⟨env, ?_, hsc, ?_, hfm⟩
    · simp only [enrich_search_resource_error, hbody, hneE, hf1, Bool.not_false,
        Bool.false_eq_true, if_false, if_true]
      rw [hre]
    · rw [hiss, List.map_map]
      rfl
  · rintro h1 ⟨i, hi, hp⟩
    have hf2 := filter_not_empty hi hp
    obtain ⟨env, hre, _, hsc, hiss⟩ := render_classifier_eval idx resource resp.status_code
      ((issues.filter isUnknownParamIssue).map
        (enrichIssue ("Unsupported or unknown parameter.") ("invalid-param")))
    refine ⟨env, ?_, hsc, ?_⟩
    · simp only [enrich_search_resource_error, hbody, hneE, h1, hf2, Bool.not_false,
        Bool.not_true, List.isEmpty_nil, Bool.false_eq_true, if_false, if_true]
      rw [hre]
    · rw [hiss, List.map_map]
      rfl
  · rintro h1 h2 ⟨i, hi, hp⟩
    have hf3 := filter_not_empty hi hp
    obtain ⟨env, hre, _, hsc, hiss⟩ := render_classifier_eval idx resource resp.status_code
      ((issues.filter isMalformedIssue).map (enrichIssue ("Malformed request.") ("invalid")))
    refine ⟨env, ?_, hsc, ?_⟩
    · simp only [enrich_search_resource_error, hbody, hneE, h1, h2, hf3, Bool.not_false,
        Bool.not_true, List.isEmpty_nil, Bool.false_eq_true, if_false, if_true]
      rw [hre]
    · rw [hiss, List.map_map]
      rfl
  · rintro h1 h2 h3 h4
    obtain ⟨env, hre, _, hsc, hiss⟩ := render_classifier_eval idx resource resp.status_code
      ((issues.filter isActionableIssue).map (enrichIssue ("Issue encountered.") ("unknown")))
    refine ⟨env, ?_, hsc, ?_⟩
    · simp only [enrich_search_resource_error, hbody, hneE, h1, h2, h3, h4, Bool.not_false,
        Bool.not_true, List.isEmpty_nil, Bool.false_eq_true, if_false, if_true]
      rw [hre]
    · rw [hiss, List.map_map]
      rfl
  · intro i hi hc hnil
    have hp : isInvalidValueIssue i = true := by
      unfold isInvalidValueIssue
      rw [hc]
      rfl
    have hmem := List.mem_filter.mpr ⟨hi, hp⟩
    rw [hnil] at hmem
    exact List.not_mem_nil i hmem

/-- Witness for C4: a body with one `invalid` issue and one `processing` issue
is classified by the first rule, which promotes the invalid issue's
diagnostics and keeps only the invalid issue in the envelope. -/
theorem c4_witness :
    (∃ i ∈ ([⟨some (some ("error")), some (some ("invalid")), some (some ("bad value")), none⟩,
             ⟨some (some ("warning")), some (some ("processing")), none, none⟩] :
        List UpIssue), isInvalidValueIssue i = true) ∧
      ∃ env, enrich_search_resource_error sampleIndex ("Patient")
          ⟨400, "x", some (.opOutcome
            [⟨some (some ("error")), some (some ("invalid")), some (some ("bad value")), none⟩,
             ⟨some (some ("warning")), some (some ("processing")), none, none⟩])⟩ =
          some (env, (400 : Int)) ∧
        env.status_code = (400 : Int) ∧
        env.issues = [⟨some ("error"), some ("invalid"), some ("bad value"),
          some ("<missing details>")⟩] ∧
        env.friendly_message =
          "Parameter(s) provided are not supported for resource 'Patient'. bad value" :=
  ⟨by decide,
   (c4_classifier_priority sampleIndex ("Patient")
      ⟨400, "x", some (.opOutcome
        [⟨some (some ("error")), some (some ("invalid")), some (some ("bad value")), none⟩,
         ⟨some (some ("warning")), some (some ("processing")), none, none⟩])⟩
      [⟨some (some ("error")), some (some ("invalid")), some (some ("bad value")), none⟩,
       ⟨some (some ("warning")), some (some ("processing")), none, none⟩]
      rfl (by decide)).1 (by decide)⟩

/-! ### Claim C5: determinism of the fuzzy matcher -/

instance ratioLtDecidable (word x y : String) : Decidable (ratioLt word x y) := by
  unfold ratioLt
  infer_instance

instance ratioEqDecidable (word x y : String) : Decidable (ratioEq word x y) := by
  unfold ratioEq
  infer_instance

/-- C5 counterexample: `"abc"` and `"abd"` are equally similar to `"ab"` and
`"abc"` precedes `"abd"` lexicographically, yet `get_close_matches` lists
`"abd"` first — `nlargest` ranks the `(ratio, string)` tuples, so ties break
by *descending* string order, not ascending lexicographic order. -/
theorem c5_counterexample :
    ratioEq ("ab") ("abc") ("abd") ∧
      pyStrLt ("abc") ("abd") = true ∧
      get_close_matches ("ab") ["abc", "abd"] 3 = ["abd", "abc"] ∧
      get_close_matches ("ab") ["abc", "abd"] 3 ≠ ["abc", "abd"] :=
  ⟨by decide, by decide, by decide, by decide⟩

/-- Python string comparison is asymmetric. -/
theorem pyStrLtB_asymm : ∀ l m, pyStrLtB l m = true → pyStrLtB m l = false
  | [], [], h => by simp [pyStrLtB] at h
  | [], _ :: _, _ => by simp [pyStrLtB]
  | _ :: _, [], h => by simp [pyStrLtB] at h
  | a :: as, b :: bs, h => by
    rw [pyStrLtB] at h
    rw [pyStrLtB]
    by_cases hab : a < b
    · rw [if_neg (lt_asymm hab), if_pos hab]
    · rw [if_neg hab] at h
      by_cases hba : b < a
      · rw [if_pos hba] at h
        exact absurd h (by simp)
      · rw [if_neg hba] at h
        rw [if_neg hba, if_neg hab]
        exact pyStrLtB_asymm as bs h

/-- Negated Python string comparison is transitive. -/
theorem pyStrLtB_false_trans :
    ∀ l m n, pyStrLtB l m = false → pyStrLtB m n = false → pyStrLtB l n = false
  | [], [], _, _, h2 => h2
  | [], _ :: _, _, h1, _ => by simp [pyStrLtB] at h1
  | _ :: _, _, [], _, _ => by simp [pyStrLtB]
  | _ :: _, [], _ :: _, _, h2 => by simp [pyStrLtB] at h2
  | a :: as, b :: bs, c :: cs, h1, h2 => by
    rw [pyStrLtB] at h1 h2
    rw [pyStrLtB]
    have hab : ¬ a < b := by
      intro h
      rw [if_pos h] at h1
      exact absurd h1 (by simp)
    have hbc : ¬ b < c := by
      intro h
      rw [if_pos h] at h2
      exact absurd h2 (by simp)
    rw [if_neg hab] at h1
    rw [if_neg hbc] at h2
    have hac : ¬ a < c := by
      intro h
      exact lt_irrefl a (lt_of_lt_of_le (lt_of_lt_of_le h (not_lt.mp hbc)) (not_lt.mp hab))
    rw [if_neg hac]
    by_cases hca : c < a
    · rw [if_pos hca]
    · rw [if_neg hca]
      have hac' : a = c := le_antisymm (not_lt.mp hca) (not_lt.mp hac)
      have hba : ¬ b < a := by
        intro h
        exact absurd (lt_of_lt_of_le h (hac' ▸ not_lt.mp hbc)) (lt_irrefl b)
      have hcb : ¬ c < b := by
        intro h
        exact absurd (lt_of_le_of_lt (hac' ▸ not_lt.mp hab) h) (lt_irrefl b)
      rw [if_neg hba] at h1
      rw [if_neg hcb] at h2
      exact pyStrLtB_false_trans as bs cs h1 h2

/-- Two strings neither of which precedes the other are equal. -/
theorem pyStrLtB_eq : ∀ l m, pyStrLtB l m = false → pyStrLtB m l = false → l = m
  | [], [], _, _ => rfl
  | [], _ :: _, h1, _ => by simp [pyStrLtB] at h1
  | _ :: _, [], _, h2 => by simp [pyStrLtB] at h2
  | a :: as, b :: bs, h1, h2 => by
    rw [pyStrLtB] at h1 h2
    have hab : ¬ a < b := by
      intro h
      rw [if_pos h] at h1
      exact absurd h1 (by simp)
    have hba : ¬ b < a := by
      intro h
      rw [if_pos h] at h2
      exact absurd h2 (by simp)
    rw [if_neg hab, if_neg hba] at h1
    rw [if_neg hba, if_neg hab] at h2
    rw [le_antisymm (not_lt.mp hba) (not_lt.mp hab), pyStrLtB_eq as bs h1 h2]

/-- Equality of character data gives equality of strings. -/
theorem string_data_ext {x y : String} (h : x.data = y.data) : x = y := by
  cases x
  cases y
  exact congrArg String.mk (by simpa using h)

/-- The ratio denominator is positive. -/
theorem ratPair_den_pos (word x : String) : 0 < (ratPair word x).2 := by
  unfold ratPair
  split
  · exact Nat.one_pos
  next h => simpa using Nat.pos_of_ne_zero h

/-- Cross-multiplication comparison is transitive (strict/strict). -/
theorem cross_lt_trans {a1 a2 b1 b2 c1 c2 : Nat} (_hb2 : 0 < b2)
    (h1 : a1 * b2 < b1 * a2) (h2 : b1 * c2 < c1 * b2) : a1 * c2 < c1 * a2 := by
  rcases Nat.eq_zero_or_pos c2 with hc | hc
  · subst hc
    have ha2 : 0 < a2 := by
      rcases Nat.eq_zero_or_pos a2 with h | h
      · rw [h, Nat.mul_zero] at h1
        exact absurd h1 (Nat.not_lt_zero _)
      · exact h
    have hc1 : 0 < c1 := by
      rcases Nat.eq_zero_or_pos c1 with h | h
      · rw [h, Nat.zero_mul] at h2
        exact absurd h2 (by simp)
      · exact h
    simpa using Nat.mul_pos hc1 ha2
  · have k3 : a1 * c2 * b2 < c1 * a2 * b2 := by
      calc a1 * c2 * b2 = a1 * b2 * c2 := by ring
        _ < b1 * a2 * c2 := mul_lt_mul_of_pos_right h1 hc
        _ = b1 * c2 * a2 := by ring
        _ ≤ c1 * b2 * a2 := mul_le_mul_of_nonneg_right (le_of_lt h2) (Nat.zero_le _)
        _ = c1 * a2 * b2 := by ring
    exact lt_of_mul_lt_mul_right k3 (Nat.zero_le _)

/-- Cross-multiplication comparison is transitive (eq/eq). -/
theorem cross_eq_trans {a1 a2 b1 b2 c1 c2 : Nat} (hb2 : 0 < b2)
    (h1 : a1 * b2 = b1 * a2) (h2 : b1 * c2 = c1 * b2) : a1 * c2 = c1 * a2 := by
  have key : a1 * c2 * b2 = c1 * a2 * b2 := by
    calc a1 * c2 * b2 = a1 * b2 * c2 := by ring
      _ = b1 * a2 * c2 := by rw [h1]
      _ = b1 * c2 * a2 := by ring
      _ = c1 * b2 * a2 := by rw [h2]
      _ = c1 * a2 * b2 := by ring
  exact Nat.eq_of_mul_eq_mul_right hb2 key

/-- Cross-multiplication comparison is transitive (strict/eq). -/
theorem cross_lt_of_lt_of_eq {a1 a2 b1 b2 c1 c2 : Nat} (_hb2 : 0 < b2) (hc2 : 0 < c2)
    (h1 : a1 * b2 < b1 * a2) (h2 : b1 * c2 = c1 * b2) : a1 * c2 < c1 * a2 := by
  have key : a1 * c2 * b2 < c1 * a2 * b2 := by
    calc a1 * c2 * b2 = a1 * b2 * c2 := by ring
      _ < b1 * a2 * c2 := mul_lt_mul_of_pos_right h1 hc2
      _ = b1 * c2 * a2 := by ring
      _ = c1 * b2 * a2 := by rw [h2]
      _ = c1 * a2 * b2 := by ring
  exact lt_of_mul_lt_mul_right key (Nat.zero_le _)

/-- Cross-multiplication comparison is transitive (eq/strict). -/
theorem cross_lt_of_eq_of_lt {a1 a2 b1 b2 c1 c2 : Nat} (_hb2 : 0 < b2) (ha2 : 0 < a2)
    (h1 : a1 * b2 = b1 * a2) (h2 : b1 * c2 < c1 * b2) : a1 * c2 < c1 * a2 := by
  have key : a1 * c2 * b2 < c1 * a2 * b2 := by
    calc a1 * c2 * b2 = a1 * b2 * c2 := by ring
      _ = b1 * a2 * c2 := by rw [h1]
      _ = b1 * c2 * a2 := by ring
      _ < c1 * b2 * a2 := mul_lt_mul_of_pos_right h2 ha2
      _ = c1 * a2 * b2 := by ring
  exact lt_of_mul_lt_mul_right key (Nat.zero_le _)

/-- The candidate order is transitive. -/
theorem gcmBefore_trans (word : String) :
    ∀ a b c, gcmBefore word a b → gcmBefore word b c → gcmBefore word a c := by
  intro a b c hab hbc
  have hb := ratPair_den_pos word b
  rcases hab with h1 | ⟨h1, h2⟩ <;> rcases hbc with h3 | ⟨h3, h4⟩
  · exact Or.inl (cross_lt_trans hb h3 h1)
  · exact Or.inl (cross_lt_of_eq_of_lt hb (ratPair_den_pos word c) h3.symm h1)
  · exact Or.inl (cross_lt_of_lt_of_eq hb (ratPair_den_pos word a) h3 h1.symm)
  · exact Or.inr ⟨cross_eq_trans hb h1 h3, pyStrLtB_false_trans _ _ _ h2 h4⟩

/-- The candidate order is antisymmetric. -/
theorem gcmBefore_antisymm (word : String) :
    ∀ a b, gcmBefore word a b → gcmBefore word b a → a = b := by
  intro a b hab hba
  rcases hab with h1 | ⟨h1, h2⟩ <;> rcases hba with h3 | ⟨h3, h4⟩
  · exact absurd h1 (Nat.lt_asymm h3)
  · unfold ratioLt at h1
    unfold ratioEq at h3
    rw [h3] at h1
    exact absurd h1 (lt_irrefl _)
  · unfold ratioEq at h1
    unfold ratioLt at h3
    rw [h1] at h3
    exact absurd h3 (lt_irrefl _)
  · exact string_data_ext (pyStrLtB_eq _ _ h2 h4)

/-- The candidate order is total. -/
theorem gcmBefore_total (word : String) :
    ∀ a b, gcmBefore word a b ∨ gcmBefore word b a := by
  intro a b
  rcases Nat.lt_trichotomy ((ratPair word a).1 * (ratPair word b).2)
      ((ratPair word b).1 * (ratPair word a).2) with h | h | h
  · exact Or.inr (Or.inl h)
  · by_cases hs : pyStrLt a b = true
    · exact Or.inr (Or.inr ⟨h.symm, pyStrLtB_asymm _ _ hs⟩)
    · exact Or.inl (Or.inr ⟨h, by simpa using hs⟩)
  · exact Or.inl (Or.inl h)

/-- C5 (amended): the fuzzy matcher is a deterministic function of its inputs:
for a duplicate-free universe the ordered suggestion list is independent of
the enumeration order of the universe (so iteration order of a hash set cannot
affect it), it is capped at the limit, and it is sorted by descending
similarity with ties between equally similar strings broken by descending
(reverse) lexicographic order. -/
theorem c5_deterministic_suggestions (word : String) (n : Nat) (p q : List String)
    (_hnd : p.Nodup) (hperm : p.Perm q) :
    get_close_matches word p n = get_close_matches word q n ∧
      (get_close_matches word p n).length ≤ n ∧
      List.Sorted (gcmBefore word) (get_close_matches word p n) := by
  haveI : IsTrans String (gcmBefore word) := ⟨gcmBefore_trans word⟩
  haveI : IsAntisymm String (gcmBefore word) := ⟨gcmBefore_antisymm word⟩
  haveI : IsTotal String (gcmBefore word) := ⟨gcmBefore_total word⟩
  have hpf : (p.filter (fun x => gcmQualifies word x)).Perm
      (q.filter (fun x => gcmQualifies word x)) := hperm.filter _
  have hsp := List.sorted_insertionSort (gcmBefore word)
    (p.filter (fun x => gcmQualifies word x))
  have hsq := List.sorted_insertionSort (gcmBefore word)
    (q.filter (fun x => gcmQualifies word x))
  have hperm2 : (List.insertionSort (gcmBefore word)
        (p.filter (fun x => gcmQualifies word x))).Perm
      (List.insertionSort (gcmBefore word) (q.filter (fun x => gcmQualifies word x))) :=
    ((List.perm_insertionSort _ _).trans hpf).trans (List.perm_insertionSort _ _).symm
  have heq := List.eq_of_perm_of_sorted hperm2 hsp hsq
  refine ⟨?_, ?_, ?_⟩
  · unfold get_close_matches
    rw [heq]
  · unfold get_close_matches
    rw [List.length_take]
    exact min_le_left _ _
  · unfold get_close_matches
    exact hsp.sublist (List.take_sublist _ _)

/-- Witness for the amended C5: two enumeration orders of the same universe
give the same suggestions. -/
theorem c5_witness :
    (["Patient", "Observation"] : List String).Nodup ∧
      (["Patient", "Observation"] : List String).Perm ["Observation", "Patient"] ∧
      (get_close_matches ("Patiant") ["Patient", "Observation"] 3 =
          get_close_matches ("Patiant") ["Observation", "Patient"] 3 ∧
        (get_close_matches ("Patiant") ["Patient", "Observation"] 3).length ≤ 3 ∧
        List.Sorted (gcmBefore ("Patiant"))
          (get_close_matches ("Patiant") ["Patient", "Observation"] 3)) :=
  ⟨by decide, List.Perm.swap ("Observation") ("Patient") [],
   c5_deterministic_suggestions ("Patiant") 3 ["Patient", "Observation"]
     ["Observation", "Patient"] (by decide) (List.Perm.swap ("Observation") ("Patient") [])⟩

end FhirNudge
